import Mathlib

/-!
Shallow embedding of `networking_l2gw/services/l2gateway/agent/ovsdb/manager.py`
(class `OVSDBManager`): the gateway connection supervisor and agent-mode state
machine.  Pure data and control flow are translated directly from the source;
collaborators that live outside this file's source (the OVSDB monitor/writer
wire classes and the base agent manager) are represented at their interface
boundary by explicit outcome parameters.
-/

namespace L2GW

/-- Modelled from the spec: `n_const.MONITOR`, the distinguished Monitor agent
type.  Its concrete literal lives in the constants module (not part of the
embedded source); only its identity and the fact that it differs from the
unset mode matter here. -/
def MONITOR : String := "monitor"

/-- The unset / neutral agent type, the empty string (`self.l2gw_agent_type = ''`). -/
def emptyAgentType : String := ""

/-- The snapshot value `'connected'` used in `ovsdb_states`. -/
def connectedState : String := "connected"

/-- The snapshot value `'disconnected'` used in `ovsdb_states`. -/
def disconnectedState : String := "disconnected"

/-- Separator used by `str(host).split(':')`. -/
def colonSep : String := ":"

/-- Separator used by `ovsdb_hosts.split(',')`. -/
def commaSep : String := ","

/-- Separator used by `"/".join(...)`. -/
def slashSep : String := "/"

/-- Separator used by `'.'.join(...)`. -/
def dotSep : String := "."

/-- Extension `'key'` of the derived private-key file name. -/
def keyExt : String := "key"

/-- Extension `'cert'` of the derived certificate file name. -/
def certExt : String := "cert"

/-- Extension `'ca_cert'` of the derived CA-certificate file name. -/
def caCertExt : String := "ca_cert"

/-- A live OVSDB connection handle (`ovsdb_fd`), observable through its
`connected` flag. -/
structure OvsdbFd where
  connected : Bool
deriving Repr, DecidableEq

/-- A registry entry: the `L2GatewayConfig` data built by
`_process_ovsdb_host` plus the mutable `ovsdb_fd` attribute attached to it by
the supervisor (`None` when no handle exists). -/
structure Gateway where
  ovsdb_identifier : String
  ovsdb_ip : String
  ovsdb_port : String
  use_ssl : Bool
  private_key : String
  certificate : String
  ca_cert : String
  ovsdb_fd : Option OvsdbFd
deriving Repr, DecidableEq

/-- `self.gateways[key] = value`: dictionary insertion, replacing an existing
entry with the same key (insertion order kept for the rest). -/
def alistInsert (m : List (String × Gateway)) (k : String) (v : Gateway) :
    List (String × Gateway) :=
  if m.any (fun p => p.1 == k) then
    m.map (fun p => if p.1 = k then (k, v) else p)
  else m ++ [(k, v)]

/-- `dict.get(key)`: first entry with the given key, if any. -/
def alistLookup {α : Type} (m : List (String × α)) (k : String) : Option α :=
  match m with
  | [] => none
  | p :: rest => if p.1 = k then some p.2 else alistLookup rest k

/-- The fields of `conf.ovsdb` the manager reads. -/
structure OvsdbConf where
  ovsdb_hosts : String
  max_connection_retries : Nat
  periodic_interval : Nat
  l2_gw_agent_priv_key_base_path : String
  l2_gw_agent_cert_base_path : String
  l2_gw_agent_ca_cert_base_path : String
deriving Repr, DecidableEq

/-- `"/".join([base, '.'.join([ident, ext])])`. -/
def mkSslPath (base ident ext : String) : String :=
  base ++ slashSep ++ ident ++ dotSep ++ ext

/-- The `L2GatewayConfig` built from one parsed host triple, including the
SSL material when all three base paths are configured (non-empty, i.e. truthy). -/
def mkGateway (conf : OvsdbConf) (s0 s1 s2 : String) : Gateway :=
  let ovsdb_identifier := s0.trim
  let use_ssl := (conf.l2_gw_agent_priv_key_base_path != emptyAgentType) &&
    (conf.l2_gw_agent_cert_base_path != emptyAgentType) &&
    (conf.l2_gw_agent_ca_cert_base_path != emptyAgentType)
  { ovsdb_identifier := ovsdb_identifier
    ovsdb_ip := s1.trim
    ovsdb_port := s2.trim
    use_ssl := use_ssl
    private_key := if use_ssl then
        mkSslPath conf.l2_gw_agent_priv_key_base_path ovsdb_identifier keyExt
      else emptyAgentType
    certificate := if use_ssl then
        mkSslPath conf.l2_gw_agent_cert_base_path ovsdb_identifier certExt
      else emptyAgentType
    ca_cert := if use_ssl then
        mkSslPath conf.l2_gw_agent_ca_cert_base_path ovsdb_identifier caCertExt
      else emptyAgentType
    ovsdb_fd := none }

/-- `_process_ovsdb_host`: split the host on `':'`; an entry with fewer than
three fields raises `IndexError` at `host_splits[1]` or `host_splits[2]`,
which the surrounding `try`/`except` logs and swallows, leaving the registry
unchanged; otherwise the entry is registered under its stripped identifier. -/
def _process_ovsdb_host (conf : OvsdbConf) (gws : List (String × Gateway))
    (host : String) : List (String × Gateway) :=
  match host.splitOn colonSep with
  | s0 :: s1 :: s2 :: _ =>
    alistInsert gws (s0.trim) (mkGateway conf s0 s1 s2)
  | _ => gws

/-- The parse of a single host entry: `some` (identifier, config) when it has
at least three colon-separated fields, `none` when parsing fails.  Derived
view of `_process_ovsdb_host` used to state which entries reach the registry. -/
def parseHost (conf : OvsdbConf) (host : String) : Option (String × Gateway) :=
  match host.splitOn colonSep with
  | s0 :: s1 :: s2 :: _ => some (s0.trim, mkGateway conf s0 s1 s2)
  | _ => none

/-- `_extract_ovsdb_config`: when `ovsdb_hosts` is non-empty (truthy), split
on `','`, process every entry, then raise `SystemExit` (modelled as
`Except.error ()`) when `max_connection_retries >= periodic_interval`.
When `ovsdb_hosts` is the empty string the whole block, the retry check
included, is skipped. -/
def _extract_ovsdb_config (conf : OvsdbConf) :
    Except Unit (List (String × Gateway)) :=
  if conf.ovsdb_hosts ≠ emptyAgentType then
    let gws := (conf.ovsdb_hosts.splitOn commaSep).foldl
      (_process_ovsdb_host conf) []
    if conf.max_connection_retries ≥ conf.periodic_interval then
      Except.error ()
    else Except.ok gws
  else Except.ok []

/-- The manager's mutable state: the agent mode (`l2gw_agent_type`), its copy
inside `agent_state['configurations']`, the looping task's running flag, and
the gateway registry. -/
structure ManagerState where
  l2gw_agent_type : String
  agent_state_l2gw_type : String
  looping_running : Bool
  gateways : List (String × Gateway)
deriving Repr, DecidableEq

/-- Modelled from the spec: the base agent manager's `__init__` (not part of
the embedded source) leaves the agent mode Unset; `OVSDBManager.__init__`
then runs `_extract_ovsdb_config` and creates the (not yet started) looping
task.  A `SystemExit` from the config check aborts construction. -/
def initManager (conf : OvsdbConf) : Except Unit ManagerState :=
  match _extract_ovsdb_config conf with
  | Except.error e => Except.error e
  | Except.ok gws =>
    Except.ok { l2gw_agent_type := emptyAgentType
                agent_state_l2gw_type := emptyAgentType
                looping_running := false
                gateways := gws }

/-- The fresh manager state over a given registry. -/
def initState (gws : List (String × Gateway)) : ManagerState :=
  { l2gw_agent_type := emptyAgentType
    agent_state_l2gw_type := emptyAgentType
    looping_running := false
    gateways := gws }

/-- `ovsdb_fd and ovsdb_fd.connected`: the entry holds a handle that reports
connected. -/
def fdConnected (g : Gateway) : Bool :=
  match g.ovsdb_fd with
  | some fd => fd.connected
  | none => false

/-- One iteration of `_disconnect_all_ovsdb_servers`'s loop body:
`if ovsdb_fd and ovsdb_fd.connected: gateway.ovsdb_fd.disconnect()`.  The
handle's `disconnect()` (an external collaborator) clears its `connected`
flag, per the spec's ConnectionHandle interface. -/
def disconnectGateway (g : Gateway) : Gateway :=
  match g.ovsdb_fd with
  | some fd =>
    if fd.connected then { g with ovsdb_fd := some { fd with connected := false } }
    else g
  | none => g

/-- `_disconnect_all_ovsdb_servers`: when the registry is truthy (non-empty),
disconnect every connected handle. -/
def _disconnect_all_ovsdb_servers (gws : List (String × Gateway)) :
    List (String × Gateway) :=
  if gws.isEmpty then gws
  else gws.map (fun p => (p.1, disconnectGateway p.2))

/-- `_stop_looping_task`: stop only when running. -/
def _stop_looping_task (st : ManagerState) : ManagerState :=
  if st.looping_running then { st with looping_running := false } else st

/-- `_start_looping_task`: start only when not running. -/
def _start_looping_task (st : ManagerState) : ManagerState :=
  if st.looping_running then st else { st with looping_running := true }

/-- `set_monitor_agent`.  Modelled from the spec: the `super()` call into the
base agent manager (not part of the embedded source) stores the requested
mode as the current AgentMode (spec SetMode), mirrored into
`agent_state['configurations']`.  The rest follows the source: if the new
mode is Monitor, start the looping task; otherwise stop it and disconnect
every OVSDB server. -/
def set_monitor_agent (st : ManagerState) (requestedMode : String) :
    ManagerState :=
  let st1 := { st with l2gw_agent_type := requestedMode
                       agent_state_l2gw_type := requestedMode }
  if st1.l2gw_agent_type = MONITOR then
    _start_looping_task st1
  else
    let st2 := _stop_looping_task st1
    { st2 with gateways := _disconnect_all_ovsdb_servers st2.gateways }

/-- `handle_report_state_failure`: when the current mode is Monitor, reset
the agent type to the empty string (also inside `agent_state`), stop the
looping task, and disconnect all OVSDB servers; otherwise do nothing. -/
def handle_report_state_failure (st : ManagerState) : ManagerState :=
  if st.l2gw_agent_type = MONITOR then
    let st1 := { st with l2gw_agent_type := emptyAgentType
                         agent_state_l2gw_type := emptyAgentType }
    let st2 := _stop_looping_task st1
    { st2 with gateways := _disconnect_all_ovsdb_servers st2.gateways }
  else st

/-- Outcome of one monitoring-connection attempt, the interface boundary of
the external `ovsdb_monitor.OVSDBMonitor` constructor and of
`eventlet.greenthread.spawn_n`: either the constructor raises, or it returns
a handle whose `connected` flag is observable, after which the spawn of the
event-reception loop either succeeds or raises. -/
inductive OpenOutcome where
  | ctorFail
  | ctorOk (connected : Bool) (spawnOk : Bool)
deriving Repr, DecidableEq

/-- What one loop iteration of `_connect_to_ovsdb_server` produces for a
gateway: its `ovsdb_states` entry (if any), its updated registry entry and
how many `OVSDBMonitor` constructions were attempted. -/
structure GatewayTickResult where
  entry : Option String
  gateway : Gateway
  opens : Nat
deriving Repr, DecidableEq

/-- One loop iteration of `_connect_to_ovsdb_server` for one gateway:
if the stored handle reports connected, the open is skipped and the gateway
is marked connected; otherwise a fresh `OVSDBMonitor` is attempted — a
constructor failure marks the gateway `'disconnected'` and continues, a
success stores the handle and spawns the event loop (`Except.error ()` is
the `SystemExit` raised when the spawn fails); the gateway is then marked
`'connected'` only when the fresh handle reports connected, and gets no
entry at all otherwise. -/
def tickGateway (g : Gateway) (out : OpenOutcome) :
    Except Unit GatewayTickResult :=
  if fdConnected g then Except.ok ⟨some connectedState, g, 0⟩
  else
    match out with
    | OpenOutcome.ctorFail => Except.ok ⟨some disconnectedState, g, 1⟩
    | OpenOutcome.ctorOk conn spawnOk =>
      let g' := { g with ovsdb_fd := some ⟨conn⟩ }
      if spawnOk then
        Except.ok ⟨if conn then some connectedState else none, g', 1⟩
      else Except.error ()

/-- The `for key in self.gateways.keys()` loop of `_connect_to_ovsdb_server`:
collects the `ovsdb_states` entries, the updated registry and the number of
connection attempts, propagating a `SystemExit` from a spawn failure. -/
def tickLoop (env : String → OpenOutcome) :
    List (String × Gateway) →
    Except Unit (List (String × String) × List (String × Gateway) × Nat)
  | [] => Except.ok ([], [], 0)
  | p :: rest =>
    match tickGateway p.2 (env p.1) with
    | Except.error e => Except.error e
    | Except.ok r =>
      match tickLoop env rest with
      | Except.error e => Except.error e
      | Except.ok (es, gs, n) =>
        Except.ok
          ((match r.entry with
            | some s => (p.1, s) :: es
            | none => es),
           (p.1, r.gateway) :: gs, r.opens + n)

/-- Observable outcome of one supervisor tick: the list of
`notify_ovsdb_states` pushes it performed (each with its `ovsdb_states`
mapping), the number of connection attempts, and the registry afterwards. -/
structure TickOut where
  pushes : List (List (String × String))
  opens : Nat
  gateways : List (String × Gateway)
deriving Repr, DecidableEq

/-- `_connect_to_ovsdb_server`, the body of the looping task: when the
registry is non-empty and the mode is Monitor, run the per-gateway loop
(a spawn failure raises `SystemExit` past the whole tick, before any push);
in every non-raising path — including the skipped one — the tick ends with
exactly one `notify_ovsdb_states` push of the computed (possibly empty)
`ovsdb_states` mapping. -/
def _connect_to_ovsdb_server (st : ManagerState) (env : String → OpenOutcome) :
    Except Unit TickOut :=
  if st.gateways ≠ [] ∧ st.l2gw_agent_type = MONITOR then
    match tickLoop env st.gateways with
    | Except.error e => Except.error e
    | Except.ok (states, gs, n) => Except.ok ⟨[states], n, gs⟩
  else Except.ok ⟨[[]], 0, st.gateways⟩

/-- Whether this gateway needs a fresh open and the spawn of its event loop
raises (the `SystemExit` path of a tick). -/
def spawnFails (g : Gateway) (out : OpenOutcome) : Bool :=
  if fdConnected g then false
  else
    match out with
    | OpenOutcome.ctorFail => false
    | OpenOutcome.ctorOk _ spawnOk => !spawnOk

/-- The `ovsdb_states` entry a non-raising loop iteration assigns to a
gateway, as a function of its own stored handle and its own open outcome. -/
def entryOf (g : Gateway) (out : OpenOutcome) : Option String :=
  if fdConnected g then some connectedState
  else
    match out with
    | OpenOutcome.ctorFail => some disconnectedState
    | OpenOutcome.ctorOk conn _ => if conn then some connectedState else none

/-- The registry entry a non-raising loop iteration leaves for a gateway. -/
def updOf (g : Gateway) (out : OpenOutcome) : Gateway :=
  if fdConnected g then g
  else
    match out with
    | OpenOutcome.ctorFail => g
    | OpenOutcome.ctorOk conn _ => { g with ovsdb_fd := some ⟨conn⟩ }

/-- How many `OVSDBMonitor` constructions a loop iteration attempts for a
gateway. -/
def opensOf (g : Gateway) : Nat :=
  if fdConnected g then 0 else 1

/-- The `ovsdb_states` mapping a completed Monitor-mode tick pushes:
each gateway contributes its own entry, when it has one. -/
def tickSnapshot (gs : List (String × Gateway)) (env : String → OpenOutcome) :
    List (String × String) :=
  gs.filterMap (fun p => (entryOf p.2 (env p.1)).map (fun s => (p.1, s)))

/-- The registry a completed Monitor-mode tick leaves behind. -/
def tickUpdate (gs : List (String × Gateway)) (env : String → OpenOutcome) :
    List (String × Gateway) :=
  gs.map (fun p => (p.1, updOf p.2 (env p.1)))

/-- The number of connection attempts in a completed Monitor-mode tick. -/
def tickOpens (gs : List (String × Gateway)) : Nat :=
  (gs.map (fun p => opensOf p.2)).sum

/-- The mode-changing entry points of the manager. -/
inductive AgentOp where
  | setMode (requestedMode : String)
  | heartbeatFailure
deriving Repr, DecidableEq

/-- Dispatch one entry point. -/
def applyOp (st : ManagerState) (op : AgentOp) : ManagerState :=
  match op with
  | AgentOp.setMode m => set_monitor_agent st m
  | AgentOp.heartbeatFailure => handle_report_state_failure st

/-- Run a sequence of entry points from a state. -/
def runOps (st : ManagerState) (ops : List AgentOp) : ManagerState :=
  ops.foldl applyOp st

/-- Interface boundary of one scoped write call: whether the external
`ovsdb_writer.OVSDBWriter` constructor succeeds, whether the operation run
on the writer inside the `with` block fails, and whether the handle's
`disconnect()` in the `finally` clause itself raises. -/
structure OpenConnEnv where
  ctorOk : Bool
  fnFails : Bool
  discFails : Bool
deriving Repr, DecidableEq

/-- What a scoped write call's caller observes. -/
inductive WriteOutcome where
  | ok
  | writerCtorError
  | opError
  | disconnectError
deriving Repr, DecidableEq

/-- Observable effects of `_open_connection` used under a `with` statement:
the caller-visible outcome, the number of `OVSDBWriter` construction
attempts and the number of `disconnect()` invocations. -/
structure OpenConnResult where
  outcome : WriteOutcome
  opens : Nat
  disconnects : Nat
deriving Repr, DecidableEq

/-- The effects of a write handler's body that never entered
`_open_connection`. -/
def noConn : OpenConnResult := ⟨WriteOutcome.ok, 0, 0⟩

/-- `_open_connection` as used by `with self._open_connection(...) as fd:`.
`ovsdb_fd` starts as `None`; the gateway is looked up (unused before the
writer construction); when the `OVSDBWriter` constructor raises, the
`finally` clause sees `ovsdb_fd` still `None` and the constructor's failure
propagates with no disconnect.  When construction succeeds the body runs and
the `finally` clause calls `disconnect()` exactly once; per Python
`try`/`finally` semantics an exception raised by `disconnect()` replaces
whatever the body produced (success or failure) — nothing here swallows it. -/
def _open_connection (gws : List (String × Gateway)) (ovsdb_identifier : String)
    (env : OpenConnEnv) : OpenConnResult :=
  let _gateway := alistLookup gws ovsdb_identifier
  if env.ctorOk then
    if env.discFails then ⟨WriteOutcome.disconnectError, 1, 1⟩
    else if env.fnFails then ⟨WriteOutcome.opError, 1, 1⟩
    else ⟨WriteOutcome.ok, 1, 1⟩
  else ⟨WriteOutcome.writerCtorError, 1, 0⟩

/-- `_is_valid_request`: the identifier is truthy (non-empty) and present in
`self.gateways.keys()`; a warning is logged otherwise. -/
def _is_valid_request (gws : List (String × Gateway))
    (ovsdb_identifier : String) : Bool :=
  (ovsdb_identifier != emptyAgentType) && gws.any (fun p => p.1 == ovsdb_identifier)

/-- Observable effects of one write handler: whether the invalid-identifier
warning was logged, the scoped-connection effects, and the registry (which
the handler never mutates) as the handler leaves it. -/
structure WriteResult where
  warned : Bool
  conn : OpenConnResult
  gateways : List (String × Gateway)
deriving Repr, DecidableEq

/-- `delete_network`: validate, then run `delete_logical_switch` under
`_open_connection`; an invalid identifier only logs a warning. -/
def delete_network (gws : List (String × Gateway)) (ovsdb_identifier : String)
    (_logical_switch_uuid : String) (env : OpenConnEnv) : WriteResult :=
  if _is_valid_request gws ovsdb_identifier then
    ⟨false, _open_connection gws ovsdb_identifier env, gws⟩
  else ⟨true, noConn, gws⟩

/-- `add_vif_to_gateway`: validate, then run `insert_ucast_macs_remote`
under `_open_connection`; an invalid identifier only logs a warning. -/
def add_vif_to_gateway (gws : List (String × Gateway))
    (ovsdb_identifier : String) (_logical_switch_dict _locator_dict
    _mac_dict : String) (env : OpenConnEnv) : WriteResult :=
  if _is_valid_request gws ovsdb_identifier then
    ⟨false, _open_connection gws ovsdb_identifier env, gws⟩
  else ⟨true, noConn, gws⟩

/-- `delete_vif_from_gateway`: validate, then run `delete_ucast_macs_remote`
under `_open_connection`; an invalid identifier only logs a warning. -/
def delete_vif_from_gateway (gws : List (String × Gateway))
    (ovsdb_identifier : String) (_logical_switch_uuid _mac : String)
    (env : OpenConnEnv) : WriteResult :=
  if _is_valid_request gws ovsdb_identifier then
    ⟨false, _open_connection gws ovsdb_identifier env, gws⟩
  else ⟨true, noConn, gws⟩

/-- `update_vif_to_gateway`: validate, then run `update_ucast_macs_remote`
under `_open_connection`; an invalid identifier only logs a warning. -/
def update_vif_to_gateway (gws : List (String × Gateway))
    (ovsdb_identifier : String) (_locator_dict _mac_dict : String)
    (env : OpenConnEnv) : WriteResult :=
  if _is_valid_request gws ovsdb_identifier then
    ⟨false, _open_connection gws ovsdb_identifier env, gws⟩
  else ⟨true, noConn, gws⟩

/-- `update_connection_to_gateway`: validate, then run the batched
`update_connection_to_gateway` writer call under `_open_connection`; an
invalid identifier only logs a warning. -/
def update_connection_to_gateway (gws : List (String × Gateway))
    (ovsdb_identifier : String) (_logical_switch_dict _locator_dicts
    _mac_dicts _port_dicts : String) (env : OpenConnEnv) : WriteResult :=
  if _is_valid_request gws ovsdb_identifier then
    ⟨false, _open_connection gws ovsdb_identifier env, gws⟩
  else ⟨true, noConn, gws⟩

/-- A handle that reports connected. -/
def fdUp : OvsdbFd := ⟨true⟩

/-- A handle that reports not connected. -/
def fdDown : OvsdbFd := ⟨false⟩

/-- A sample non-SSL registry entry. -/
def mkPlainGateway (ident ip port : String) (fd : Option OvsdbFd) : Gateway :=
  { ovsdb_identifier := ident
    ovsdb_ip := ip
    ovsdb_port := port
    use_ssl := false
    private_key := emptyAgentType
    certificate := emptyAgentType
    ca_cert := emptyAgentType
    ovsdb_fd := fd }

/-- Sample identifier. -/
def idA : String := "hostA"

/-- Sample identifier. -/
def idB : String := "hostB"

/-- Sample identifier, absent from sample registries. -/
def idC : String := "hostC"

/-- Sample address. -/
def ipA : String := "10.0.0.1"

/-- Sample address. -/
def ipB : String := "10.0.0.2"

/-- Sample port. -/
def portA : String := "6632"

/-- The mode-exclusivity invariant: the looping task runs iff the current
agent type is Monitor. -/
def modeInv (st : ManagerState) : Prop :=
  st.looping_running = true ↔ st.l2gw_agent_type = MONITOR

lemma MONITOR_ne_empty : MONITOR ≠ emptyAgentType := by decide

lemma modeInv_set_monitor_agent (st : ManagerState) (m : String) :
    modeInv (set_monitor_agent st m) := by
  unfold modeInv set_monitor_agent _start_looping_task _stop_looping_task
  by_cases hm : m = MONITOR <;> simp only [hm] <;> split_ifs <;> simp_all

lemma modeInv_handle_report_state_failure (st : ManagerState)
    (h : modeInv st) : modeInv (handle_report_state_failure st) := by
  unfold modeInv handle_report_state_failure _stop_looping_task at *
  split_ifs <;> simp_all [MONITOR_ne_empty.symm, emptyAgentType, MONITOR]

lemma modeInv_runOps (ops : List AgentOp) (st : ManagerState)
    (h : modeInv st) : modeInv (runOps st ops) := by
  induction ops generalizing st with
  | nil => simpa [runOps] using h
  | cons op rest ih =>
    have h1 : modeInv (applyOp st op) := by
      cases op with
      | setMode m => exact modeInv_set_monitor_agent st m
      | heartbeatFailure => exact modeInv_handle_report_state_failure st h
    simpa [runOps, List.foldl] using ih (applyOp st op) h1

/-- C1: Mode exclusivity: starting from the initial state (agent mode unset,
periodic task not running), after every finite sequence of
`set_monitor_agent` and `handle_report_state_failure` calls, the looping
task is running if and only if the current agent type equals Monitor. -/
theorem mode_exclusivity (gws : List (String × Gateway)) (ops : List AgentOp) :
    (runOps (initState gws) ops).looping_running = true ↔
    (runOps (initState gws) ops).l2gw_agent_type = MONITOR := by
  have h0 : modeInv (initState gws) := by
    unfold modeInv initState
    simp [MONITOR, emptyAgentType]
  exact modeInv_runOps ops _ h0

lemma disconnect_all_eq_map (gws : List (String × Gateway)) :
    _disconnect_all_ovsdb_servers gws =
      gws.map (fun p => (p.1, disconnectGateway p.2)) := by
  unfold _disconnect_all_ovsdb_servers
  split_ifs with h
  · rw [List.isEmpty_iff] at h
    simp [h]
  · rfl

lemma fdConnected_disconnectGateway (g : Gateway) :
    fdConnected (disconnectGateway g) = false := by
  unfold fdConnected disconnectGateway
  cases h : g.ovsdb_fd with
  | none => simp [h]
  | some fd => cases hc : fd.connected <;> simp [h, hc]

lemma disconnectGateway_of_not_connected (g : Gateway)
    (h : fdConnected g = false) : disconnectGateway g = g := by
  unfold fdConnected at h
  unfold disconnectGateway
  cases hfd : g.ovsdb_fd with
  | none => rfl
  | some fd => simp [hfd] at h ⊢; simp [h]

/-- C6: Heartbeat-failure transition: when the current agent type is
Monitor, `handle_report_state_failure` resets the agent type (and its copy
in the agent state) to the empty string, stops the looping task, and
disconnects exactly the gateways whose handle reports connected (the others
are left as they were); when the current agent type is anything else it
changes nothing at all. -/
theorem heartbeat_failure_transition (st : ManagerState) :
    (st.l2gw_agent_type = MONITOR →
      handle_report_state_failure st =
        { l2gw_agent_type := emptyAgentType
          agent_state_l2gw_type := emptyAgentType
          looping_running := false
          gateways := st.gateways.map (fun p => (p.1, disconnectGateway p.2)) } ∧
      (∀ p ∈ (handle_report_state_failure st).gateways,
        fdConnected p.2 = false) ∧
      (∀ p ∈ st.gateways, fdConnected p.2 = false →
        disconnectGateway p.2 = p.2)) ∧
    (st.l2gw_agent_type ≠ MONITOR → handle_report_state_failure st = st) := by
  constructor
  · intro h
    have heq : handle_report_state_failure st =
        { l2gw_agent_type := emptyAgentType
          agent_state_l2gw_type := emptyAgentType
          looping_running := false
          gateways := st.gateways.map (fun p => (p.1, disconnectGateway p.2)) } := by
      unfold handle_report_state_failure _stop_looping_task
      rw [if_pos h]
      simp only [disconnect_all_eq_map]
      split_ifs <;> simp_all
    refine ⟨heq, ?_, ?_⟩
    · intro p hp
      rw [heq] at hp
      simp only [List.mem_map] at hp
      obtain ⟨q, _, hq⟩ := hp
      rw [← hq]
      exact fdConnected_disconnectGateway q.2
    · intro p _ hconn
      exact disconnectGateway_of_not_connected p.2 hconn
  · intro h
    unfold handle_report_state_failure
    simp [h]

/-- Concrete state for the C6 witness: Monitor mode, task running, one
connected and one handle-less gateway. -/
def stC6 : ManagerState :=
  { l2gw_agent_type := MONITOR
    agent_state_l2gw_type := MONITOR
    looping_running := true
    gateways := [(idA, mkPlainGateway idA ipA portA (some fdUp)),
                 (idB, mkPlainGateway idB ipB portA none)] }

/-- Witness for C6 at a concrete Monitor-mode state. -/
theorem heartbeat_failure_transition_witness :
    stC6.l2gw_agent_type = MONITOR ∧
    handle_report_state_failure stC6 =
      { l2gw_agent_type := emptyAgentType
        agent_state_l2gw_type := emptyAgentType
        looping_running := false
        gateways := stC6.gateways.map (fun p => (p.1, disconnectGateway p.2)) } :=
  ⟨rfl, ((heartbeat_failure_transition stC6).1 rfl).1⟩

/-- Registry used by the C2 artifacts: `idA` is registered. -/
def gwsC2 : List (String × Gateway) := [(idA, mkPlainGateway idA ipA portA none)]

/-- C2 counterexample: for the registered identifier `idA`, when the writer
constructs, the operation inside the block fails, and the `disconnect()` in
the `finally` clause itself raises, the caller observes the disconnect
failure: the release failure is not swallowed — it masks the original
operation failure, refuting the claim's masking clause. -/
theorem scoped_release_counterexample :
    alistLookup gwsC2 idA ≠ none ∧
    _open_connection gwsC2 idA ⟨true, true, true⟩ =
      ⟨WriteOutcome.disconnectError, 1, 1⟩ ∧
    WriteOutcome.disconnectError ≠ WriteOutcome.opError := by
  refine ⟨by decide, rfl, by decide⟩

/-- C2 amended: for every registered gateway identifier and every outcome of
the function run inside `_open_connection`, when the writer constructed the
connection, `disconnect()` is invoked exactly once before the call returns
or propagates (and when construction itself failed there is no handle and no
disconnect); when the release succeeds the original outcome is reported
unchanged, but when the release itself fails, its failure propagates to the
caller in place of the original outcome rather than being swallowed. -/
theorem scoped_release (gws : List (String × Gateway))
    (ovsdb_identifier : String) (env : OpenConnEnv)
    (_hreg : alistLookup gws ovsdb_identifier ≠ none) :
    (env.ctorOk = true →
      (_open_connection gws ovsdb_identifier env).disconnects = 1 ∧
      (env.discFails = false →
        (_open_connection gws ovsdb_identifier env).outcome =
          (if env.fnFails then WriteOutcome.opError else WriteOutcome.ok)) ∧
      (env.discFails = true →
        (_open_connection gws ovsdb_identifier env).outcome =
          WriteOutcome.disconnectError)) ∧
    (env.ctorOk = false →
      (_open_connection gws ovsdb_identifier env).disconnects = 0 ∧
      (_open_connection gws ovsdb_identifier env).outcome =
        WriteOutcome.writerCtorError) := by
  unfold _open_connection
  cases env with
  | mk c f d => cases c <;> cases f <;> cases d <;> simp

/-- Witness for C2 at a concrete successful call on a registered gateway. -/
theorem scoped_release_witness :
    alistLookup gwsC2 idA ≠ none ∧
    (_open_connection gwsC2 idA ⟨true, false, false⟩).disconnects = 1 ∧
    (_open_connection gwsC2 idA ⟨true, false, false⟩).outcome =
      WriteOutcome.ok := by
  have hreg : alistLookup gwsC2 idA ≠ none := by decide
  have h := (scoped_release gwsC2 idA ⟨true, false, false⟩ hreg).1 rfl
  exact ⟨hreg, h.1, by simpa using h.2.1 rfl⟩

/-- Configuration for the C7 counterexample: empty host list, retries 5,
interval 3. -/
def confC7 : OvsdbConf :=
  { ovsdb_hosts := emptyAgentType
    max_connection_retries := 5
    periodic_interval := 3
    l2_gw_agent_priv_key_base_path := emptyAgentType
    l2_gw_agent_cert_base_path := emptyAgentType
    l2_gw_agent_ca_cert_base_path := emptyAgentType }

/-- C7 counterexample: with an empty `ovsdb_hosts`, a configuration whose
`max_connection_retries` exceeds `periodic_interval` does NOT raise — the
whole check sits inside the non-empty-hosts branch, so construction
completes normally, refuting "for every configuration". -/
theorem startup_validation_counterexample :
    confC7.max_connection_retries ≥ confC7.periodic_interval ∧
    _extract_ovsdb_config confC7 = Except.ok [] ∧
    initManager confC7 = Except.ok (initState []) :=
  ⟨by decide, rfl, rfl⟩

/-- C7 amended: for every configuration with a non-empty `ovsdb_hosts`,
construction with `max_connection_retries ≥ periodic_interval` raises the
fatal `SystemExit` and the manager (its looping task included) is never
built; with an empty host list the check is skipped. -/
theorem startup_validation (conf : OvsdbConf)
    (hhosts : conf.ovsdb_hosts ≠ emptyAgentType)
    (hge : conf.max_connection_retries ≥ conf.periodic_interval) :
    _extract_ovsdb_config conf = Except.error () ∧
    initManager conf = Except.error () := by
  have h1 : _extract_ovsdb_config conf = Except.error () := by
    unfold _extract_ovsdb_config
    rw [if_pos hhosts, if_pos hge]
  refine ⟨h1, ?_⟩
  unfold initManager
  rw [h1]

/-- Configuration for the C7 witness: non-empty host list, retries 5,
interval 3. -/
def confC7w : OvsdbConf :=
  { ovsdb_hosts := "hostA:10.0.0.1:6632"
    max_connection_retries := 5
    periodic_interval := 3
    l2_gw_agent_priv_key_base_path := emptyAgentType
    l2_gw_agent_cert_base_path := emptyAgentType
    l2_gw_agent_ca_cert_base_path := emptyAgentType }

/-- Witness for C7 at a concrete misconfigured non-empty host list. -/
theorem startup_validation_witness :
    confC7w.ovsdb_hosts ≠ emptyAgentType ∧
    confC7w.max_connection_retries ≥ confC7w.periodic_interval ∧
    _extract_ovsdb_config confC7w = Except.error () ∧
    initManager confC7w = Except.error () := by
  have h := startup_validation confC7w (by decide) (by decide)
  exact ⟨by decide, by decide, h.1, h.2⟩

lemma any_eq_false_of_lookup_none {α : Type} (m : List (String × α))
    (k : String) (h : alistLookup m k = none) :
    m.any (fun p => p.1 == k) = false := by
  induction m with
  | nil => rfl
  | cons p rest ih =>
    by_cases hp : p.1 = k
    · unfold alistLookup at h
      simp [hp] at h
    · have h' : alistLookup rest k = none := by
        unfold alistLookup at h
        rwa [if_neg hp] at h
      simp [List.any_cons, hp, ih h']

lemma is_valid_request_false (gws : List (String × Gateway)) (k : String)
    (h : k = emptyAgentType ∨ alistLookup gws k = none) :
    _is_valid_request gws k = false := by
  unfold _is_valid_request
  cases h with
  | inl h => simp [h]
  | inr h => simp [any_eq_false_of_lookup_none gws k h]

/-- C8: Invalid-identifier safety: every write handler invoked with an
identifier that is empty or not present in the registry logs the warning,
opens no connection, runs no disconnect, leaves the registry unchanged and
returns normally (no exception reaches the caller). -/
theorem invalid_identifier_safety (gws : List (String × Gateway))
    (ovsdb_identifier : String) (env : OpenConnEnv) (p1 p2 p3 p4 : String)
    (hinv : ovsdb_identifier = emptyAgentType ∨
      alistLookup gws ovsdb_identifier = none) :
    delete_network gws ovsdb_identifier p1 env = ⟨true, noConn, gws⟩ ∧
    add_vif_to_gateway gws ovsdb_identifier p1 p2 p3 env = ⟨true, noConn, gws⟩ ∧
    delete_vif_from_gateway gws ovsdb_identifier p1 p2 env = ⟨true, noConn, gws⟩ ∧
    update_vif_to_gateway gws ovsdb_identifier p1 p2 env = ⟨true, noConn, gws⟩ ∧
    update_connection_to_gateway gws ovsdb_identifier p1 p2 p3 p4 env =
      ⟨true, noConn, gws⟩ := by
  have hv := is_valid_request_false gws ovsdb_identifier hinv
  unfold delete_network add_vif_to_gateway delete_vif_from_gateway
    update_vif_to_gateway update_connection_to_gateway
  simp [hv]

/-- Registry used by the C8 witness: only `idA` is registered. -/
def gwsC8 : List (String × Gateway) := [(idA, mkPlainGateway idA ipA portA none)]

/-- Witness for C8 at a concrete absent identifier. -/
theorem invalid_identifier_safety_witness :
    (idC = emptyAgentType ∨ alistLookup gwsC8 idC = none) ∧
    delete_network gwsC8 idC ipA ⟨true, false, false⟩ =
      ⟨true, noConn, gwsC8⟩ := by
  have hinv : idC = emptyAgentType ∨ alistLookup gwsC8 idC = none :=
    Or.inr (by decide)
  exact ⟨hinv,
    (invalid_identifier_safety gwsC8 idC ⟨true, false, false⟩ ipA ipA ipA ipA
      hinv).1⟩

lemma tickGateway_ok (g : Gateway) (out : OpenOutcome)
    (h : spawnFails g out = false) :
    tickGateway g out = Except.ok ⟨entryOf g out, updOf g out, opensOf g⟩ := by
  unfold spawnFails at h
  unfold tickGateway entryOf updOf opensOf
  cases hfd : fdConnected g with
  | true => simp [hfd]
  | false =>
    rw [hfd] at h
    cases out with
    | ctorFail => simp [hfd]
    | ctorOk conn spawnOk =>
      cases spawnOk with
      | true => simp [hfd]
      | false => simp at h

lemma tickGateway_error (g : Gateway) (out : OpenOutcome)
    (h : spawnFails g out = true) : tickGateway g out = Except.error () := by
  unfold spawnFails at h
  unfold tickGateway
  cases hfd : fdConnected g with
  | true => rw [hfd] at h; simp at h
  | false =>
    rw [hfd] at h
    cases out with
    | ctorFail => simp at h
    | ctorOk conn spawnOk =>
      cases spawnOk with
      | true => simp at h
      | false => simp [hfd]

lemma tickLoop_ok (env : String → OpenOutcome) (gs : List (String × Gateway))
    (h : ∀ p ∈ gs, spawnFails p.2 (env p.1) = false) :
    tickLoop env gs =
      Except.ok (tickSnapshot gs env, tickUpdate gs env, tickOpens gs) := by
  induction gs with
  | nil => simp [tickLoop, tickSnapshot, tickUpdate, tickOpens]
  | cons p rest ih =>
    have hp : spawnFails p.2 (env p.1) = false := h p (List.mem_cons_self p rest)
    have hr : ∀ q ∈ rest, spawnFails q.2 (env q.1) = false :=
      fun q hq => h q (List.mem_cons_of_mem p hq)
    unfold tickLoop
    rw [tickGateway_ok p.2 (env p.1) hp, ih hr]
    unfold tickSnapshot tickUpdate tickOpens
    simp only [List.filterMap_cons, List.map_cons, List.sum_cons]
    cases he : entryOf p.2 (env p.1) <;> simp [he]

lemma connect_ok (st : ManagerState) (env : String → OpenOutcome)
    (hmode : st.l2gw_agent_type = MONITOR) (hne : st.gateways ≠ [])
    (h : ∀ p ∈ st.gateways, spawnFails p.2 (env p.1) = false) :
    _connect_to_ovsdb_server st env =
      Except.ok ⟨[tickSnapshot st.gateways env], tickOpens st.gateways,
                 tickUpdate st.gateways env⟩ := by
  unfold _connect_to_ovsdb_server
  rw [if_pos ⟨hne, hmode⟩, tickLoop_ok env st.gateways h]

lemma alistLookup_none_of_forall {α : Type} (m : List (String × α))
    (k : String) (h : ∀ p ∈ m, p.1 ≠ k) : alistLookup m k = none := by
  induction m with
  | nil => rfl
  | cons p rest ih =>
    unfold alistLookup
    rw [if_neg (h p (List.mem_cons_self p rest))]
    exact ih (fun q hq => h q (List.mem_cons_of_mem p hq))

lemma tickSnapshot_keys (gs : List (String × Gateway))
    (env : String → OpenOutcome) (q : String × String)
    (hq : q ∈ tickSnapshot gs env) : q.1 ∈ gs.map Prod.fst := by
  unfold tickSnapshot at hq
  rw [List.mem_filterMap] at hq
  obtain ⟨p, hp, hfp⟩ := hq
  cases he : entryOf p.2 (env p.1) with
  | none => rw [he] at hfp; simp at hfp
  | some s =>
    rw [he] at hfp
    simp only [Option.map_some', Option.some.injEq] at hfp
    rw [List.mem_map]
    exact ⟨p, hp, by rw [← hfp]⟩

lemma alistLookup_tickSnapshot (gs : List (String × Gateway))
    (env : String → OpenOutcome) (k : String) (g : Gateway)
    (hnd : (gs.map Prod.fst).Nodup) (hmem : (k, g) ∈ gs) :
    alistLookup (tickSnapshot gs env) k = entryOf g (env k) := by
  induction gs with
  | nil => cases hmem
  | cons p rest ih =>
    rw [List.map_cons, List.nodup_cons] at hnd
    obtain ⟨hp1, hnd'⟩ := hnd
    unfold tickSnapshot
    rw [List.filterMap_cons]
    rcases List.mem_cons.mp hmem with heq | hmemr
    · have hk : p.1 = k := by rw [← heq]
      have hg : p.2 = g := by rw [← heq]
      cases he : entryOf p.2 (env p.1) with
      | some s =>
        simp only [he, Option.map_some']
        unfold alistLookup
        rw [if_pos hk]
        rw [hk, hg] at he
        exact he.symm
      | none =>
        simp only [he, Option.map_none']
        rw [hk, hg] at he
        rw [he]
        apply alistLookup_none_of_forall
        intro q hq hqk
        have hmem2 : q.1 ∈ rest.map Prod.fst := tickSnapshot_keys rest env q hq
        apply hp1
        rw [hk, ← hqk]
        exact hmem2
    · have hk : p.1 ≠ k := by
        intro hpk
        apply hp1
        rw [hpk]
        exact List.mem_map.mpr ⟨(k, g), hmemr, rfl⟩
      cases he : entryOf p.2 (env p.1) with
      | some s =>
        simp only [he, Option.map_some']
        unfold alistLookup
        rw [if_neg hk]
        exact ih hnd' hmemr
      | none =>
        simp only [he, Option.map_none']
        exact ih hnd' hmemr

/-- State for the C3 counterexample: non-Monitor mode, non-empty registry. -/
def stC3 : ManagerState :=
  { l2gw_agent_type := emptyAgentType
    agent_state_l2gw_type := emptyAgentType
    looping_running := false
    gateways := [(idA, mkPlainGateway idA ipA portA none)] }

/-- Environment where every open attempt raises. -/
def envFail : String → OpenOutcome := fun _ => OpenOutcome.ctorFail

/-- C3 counterexample: in non-Monitor mode the tick attempts nothing and
changes nothing, but it still performs exactly one `notify_ovsdb_states`
push (with the empty mapping) — the `notify` call sits outside the guard —
refuting "performs no outbound push". -/
theorem tick_skip_counterexample :
    stC3.l2gw_agent_type ≠ MONITOR ∧
    _connect_to_ovsdb_server stC3 envFail =
      Except.ok ⟨[[]], 0, stC3.gateways⟩ ∧
    ([([] : List (String × String))]).length = 1 :=
  ⟨by decide, rfl, rfl⟩

/-- C3 amended: whenever the registry is empty or the agent type is not
Monitor, a supervisor tick attempts no connections and leaves the registry
untouched, but it is not entirely a no-op: it still pushes the (empty)
aggregate state exactly once. -/
theorem tick_skip (st : ManagerState) (env : String → OpenOutcome)
    (h : st.gateways = [] ∨ st.l2gw_agent_type ≠ MONITOR) :
    _connect_to_ovsdb_server st env = Except.ok ⟨[[]], 0, st.gateways⟩ := by
  have hn : ¬(st.gateways ≠ [] ∧ st.l2gw_agent_type = MONITOR) := by
    rcases h with h | h
    · exact fun hc => hc.1 h
    · exact fun hc => h hc.2
  unfold _connect_to_ovsdb_server
  rw [if_neg hn]

/-- Witness for C3 at the concrete non-Monitor state. -/
theorem tick_skip_witness :
    (stC3.gateways = [] ∨ stC3.l2gw_agent_type ≠ MONITOR) ∧
    _connect_to_ovsdb_server stC3 envFail =
      Except.ok ⟨[[]], 0, stC3.gateways⟩ :=
  ⟨Or.inr (by decide), tick_skip stC3 envFail (Or.inr (by decide))⟩

/-- State for the C4 counterexample: Monitor mode, one registered gateway
with no handle. -/
def stC4 : ManagerState :=
  { l2gw_agent_type := MONITOR
    agent_state_l2gw_type := MONITOR
    looping_running := true
    gateways := [(idA, mkPlainGateway idA ipA portA none)] }

/-- Environment where every open succeeds but the fresh handle does not
report connected, and the spawn succeeds. -/
def envNotConn : String → OpenOutcome := fun _ => OpenOutcome.ctorOk false true

/-- C4 counterexample: a Monitor-mode tick over a non-empty registry in
which the only gateway's open succeeds but the fresh handle does not report
connected pushes a snapshot in which that registered gateway is absent —
mapped to neither "connected" nor "disconnected" — refuting snapshot
completeness. -/
theorem snapshot_completeness_counterexample :
    stC4.l2gw_agent_type = MONITOR ∧ stC4.gateways ≠ [] ∧
    alistLookup stC4.gateways idA ≠ none ∧
    _connect_to_ovsdb_server stC4 envNotConn =
      Except.ok ⟨[[]], 1, [(idA, mkPlainGateway idA ipA portA (some fdDown))]⟩ ∧
    alistLookup ([] : List (String × String)) idA = none :=
  ⟨rfl, by decide, by decide, rfl, rfl⟩

/-- C4 amended: on every Monitor-mode tick over a non-empty registry in
which every spawn succeeds, exactly one snapshot is pushed; it maps each
registered gateway according to its own stored handle and open outcome
(`entryOf`), and a registered gateway is absent from the snapshot exactly
when it needed a fresh open that succeeded with a handle not reporting
connected — every other registered gateway is mapped to "connected" or
"disconnected". -/
theorem snapshot_entries (st : ManagerState) (env : String → OpenOutcome)
    (hmode : st.l2gw_agent_type = MONITOR) (hne : st.gateways ≠ [])
    (hnd : (st.gateways.map Prod.fst).Nodup)
    (hsp : ∀ p ∈ st.gateways, spawnFails p.2 (env p.1) = false) :
    _connect_to_ovsdb_server st env =
      Except.ok ⟨[tickSnapshot st.gateways env], tickOpens st.gateways,
                 tickUpdate st.gateways env⟩ ∧
    ∀ p ∈ st.gateways,
      alistLookup (tickSnapshot st.gateways env) p.1 = entryOf p.2 (env p.1) ∧
      (alistLookup (tickSnapshot st.gateways env) p.1 = none ↔
        fdConnected p.2 = false ∧
          ∃ s, env p.1 = OpenOutcome.ctorOk false s) := by
  refine ⟨connect_ok st env hmode hne hsp, ?_⟩
  intro p hp
  have hl := alistLookup_tickSnapshot st.gateways env p.1 p.2 hnd hp
  refine ⟨hl, ?_⟩
  rw [hl]
  unfold entryOf
  cases hfd : fdConnected p.2 with
  | true => simp [hfd]
  | false =>
    cases he : env p.1 with
    | ctorFail => simp [hfd, he]
    | ctorOk conn s => cases conn <;> simp [hfd, he]

/-- State for the C4 witness: the spec scenario, gateway A unreachable and
gateway B already connected. -/
def stC4w : ManagerState :=
  { l2gw_agent_type := MONITOR
    agent_state_l2gw_type := MONITOR
    looping_running := true
    gateways := [(idA, mkPlainGateway idA ipA portA none),
                 (idB, mkPlainGateway idB ipB portA (some fdUp))] }

/-- Environment for the C4 witness: opening A raises, everything else
connects. -/
def envC4w : String → OpenOutcome := fun k =>
  if k = idA then OpenOutcome.ctorFail else OpenOutcome.ctorOk true true

/-- Witness for C4 at the concrete two-gateway scenario. -/
theorem snapshot_entries_witness :
    stC4w.l2gw_agent_type = MONITOR ∧ stC4w.gateways ≠ [] ∧
    (stC4w.gateways.map Prod.fst).Nodup ∧
    (∀ p ∈ stC4w.gateways, spawnFails p.2 (envC4w p.1) = false) ∧
    _connect_to_ovsdb_server stC4w envC4w =
      Except.ok ⟨[tickSnapshot stC4w.gateways envC4w], tickOpens stC4w.gateways,
                 tickUpdate stC4w.gateways envC4w⟩ := by
  have h := snapshot_entries stC4w envC4w rfl (by decide) (by decide) (by decide)
  exact ⟨rfl, by decide, by decide, by decide, h.1⟩

lemma eq_of_mem_nodup_keys {α : Type} (l : List (String × α))
    (hnd : (l.map Prod.fst).Nodup) (k : String) (g : α) (p : String × α)
    (hg : (k, g) ∈ l) (hp : p ∈ l) (hpk : p.1 = k) : p = (k, g) := by
  induction l with
  | nil => cases hg
  | cons q rest ih =>
    rw [List.map_cons, List.nodup_cons] at hnd
    obtain ⟨hq, hnd'⟩ := hnd
    rcases List.mem_cons.mp hg with hg1 | hg2 <;>
      rcases List.mem_cons.mp hp with hp1 | hp2
    · rw [hp1, ← hg1]
    · exfalso
      apply hq
      have hq1 : q.1 = k := by rw [← hg1]
      rw [hq1, ← hpk]
      exact List.mem_map.mpr ⟨p, hp2, rfl⟩
    · exfalso
      apply hq
      have hq1 : q.1 = k := by rw [← hp1, hpk]
      rw [hq1]
      exact List.mem_map.mpr ⟨(k, g), hg2, rfl⟩
    · exact ih hnd' hg2 hp2

/-- C5: Tick isolation: in a Monitor-mode tick, when one gateway's
connection open fails (environment `env'`, agreeing with `env` everywhere
else), the tick still completes with exactly one push, the failing gateway
is mapped to "disconnected" in the pushed snapshot, and every other
registered gateway's snapshot entry and registry update are exactly what
its own stored handle and its own outcome dictate — unchanged from the
environment without the failure. -/
theorem tick_isolation (st : ManagerState) (env env' : String → OpenOutcome)
    (k : String) (g : Gateway)
    (hmode : st.l2gw_agent_type = MONITOR)
    (hnd : (st.gateways.map Prod.fst).Nodup)
    (hmem : (k, g) ∈ st.gateways)
    (hneeds : fdConnected g = false)
    (hk : env' k = OpenOutcome.ctorFail)
    (hagree : ∀ p ∈ st.gateways, p.1 ≠ k → env' p.1 = env p.1)
    (hsp : ∀ p ∈ st.gateways, spawnFails p.2 (env p.1) = false) :
    _connect_to_ovsdb_server st env' =
      Except.ok ⟨[tickSnapshot st.gateways env'], tickOpens st.gateways,
                 tickUpdate st.gateways env'⟩ ∧
    alistLookup (tickSnapshot st.gateways env') k = some disconnectedState ∧
    ∀ p ∈ st.gateways, p.1 ≠ k →
      entryOf p.2 (env' p.1) = entryOf p.2 (env p.1) ∧
      updOf p.2 (env' p.1) = updOf p.2 (env p.1) := by
  have hne : st.gateways ≠ [] := by
    intro h0
    rw [h0] at hmem
    cases hmem
  have hsp' : ∀ p ∈ st.gateways, spawnFails p.2 (env' p.1) = false := by
    intro p hp
    by_cases hpk : p.1 = k
    · have hpg : p = (k, g) := eq_of_mem_nodup_keys st.gateways hnd k g p hmem hp hpk
      rw [hpg]
      simp only [hk]
      unfold spawnFails
      rw [hneeds]
      simp
    · rw [hagree p hp hpk]
      exact hsp p hp
  refine ⟨connect_ok st env' hmode hne hsp', ?_, ?_⟩
  · have hl := alistLookup_tickSnapshot st.gateways env' k g hnd hmem
    rw [hl]
    unfold entryOf
    rw [hneeds, hk]
    simp
  · intro p hp hpk
    rw [hagree p hp hpk]
    exact ⟨rfl, rfl⟩

/-- State for the C5 witness: gateway A with no handle, gateway B already
connected. -/
def stC5 : ManagerState :=
  { l2gw_agent_type := MONITOR
    agent_state_l2gw_type := MONITOR
    looping_running := true
    gateways := [(idA, mkPlainGateway idA ipA portA none),
                 (idB, mkPlainGateway idB ipB portA (some fdUp))] }

/-- Environment for the C5 witness where everything connects. -/
def envC5 : String → OpenOutcome := fun _ => OpenOutcome.ctorOk true true

/-- Environment for the C5 witness where only opening A raises. -/
def envC5f : String → OpenOutcome := fun k =>
  if k = idA then OpenOutcome.ctorFail else OpenOutcome.ctorOk true true

/-- Witness for C5 at the concrete two-gateway scenario. -/
theorem tick_isolation_witness :
    (idA, mkPlainGateway idA ipA portA none) ∈ stC5.gateways ∧
    envC5f idA = OpenOutcome.ctorFail ∧
    alistLookup (tickSnapshot stC5.gateways envC5f) idA =
      some disconnectedState := by
  have h := tick_isolation stC5 envC5 envC5f idA
    (mkPlainGateway idA ipA portA none) rfl (by decide) (by decide) rfl rfl
    (by decide) (by decide)
  exact ⟨by decide, rfl, h.2.1⟩

lemma tickLoop_error (env : String → OpenOutcome) (k : String) (g : Gateway)
    (gs₂ : List (String × Gateway))
    (hfail : spawnFails g (env k) = true) :
    ∀ gs₁ : List (String × Gateway),
      (∀ p ∈ gs₁, spawnFails p.2 (env p.1) = false) →
      tickLoop env (gs₁ ++ (k, g) :: gs₂) = Except.error () := by
  intro gs₁
  induction gs₁ with
  | nil =>
    intro _
    simp only [List.nil_append]
    unfold tickLoop
    rw [tickGateway_error g (env k) hfail]
  | cons p rest ih =>
    intro hpre
    simp only [List.cons_append]
    unfold tickLoop
    rw [tickGateway_ok p.2 (env p.1) (hpre p (List.mem_cons_self p rest)),
      ih (fun q hq => hpre q (List.mem_cons_of_mem p hq))]

/-- C9: Spawn-failure fatality: during a Monitor-mode tick, when the
gateways processed earlier in the loop raise no spawn failure and one
gateway's event-loop spawn fails, the whole tick propagates the
`SystemExit`: no snapshot is pushed and the failure is not handled as a
recoverable per-gateway error. -/
theorem spawn_failure_fatal (st : ManagerState) (env : String → OpenOutcome)
    (gs₁ gs₂ : List (String × Gateway)) (k : String) (g : Gateway)
    (hmode : st.l2gw_agent_type = MONITOR)
    (hsplit : st.gateways = gs₁ ++ (k, g) :: gs₂)
    (hpre : ∀ p ∈ gs₁, spawnFails p.2 (env p.1) = false)
    (hfail : spawnFails g (env k) = true) :
    _connect_to_ovsdb_server st env = Except.error () := by
  have hne : st.gateways ≠ [] := by
    rw [hsplit]
    simp
  unfold _connect_to_ovsdb_server
  rw [if_pos ⟨hne, hmode⟩, hsplit, tickLoop_error env k g gs₂ hfail gs₁ hpre]

/-- State for the C9 witness: Monitor mode, one handle-less gateway. -/
def stC9 : ManagerState :=
  { l2gw_agent_type := MONITOR
    agent_state_l2gw_type := MONITOR
    looping_running := true
    gateways := [(idA, mkPlainGateway idA ipA portA none)] }

/-- Environment for the C9 witness: the open succeeds, the spawn raises. -/
def envC9 : String → OpenOutcome := fun _ => OpenOutcome.ctorOk true false

/-- Witness for C9 at a concrete spawn failure. -/
theorem spawn_failure_fatal_witness :
    stC9.l2gw_agent_type = MONITOR ∧
    spawnFails (mkPlainGateway idA ipA portA none) (envC9 idA) = true ∧
    _connect_to_ovsdb_server stC9 envC9 = Except.error () := by
  have h := spawn_failure_fatal stC9 envC9 [] [] idA
    (mkPlainGateway idA ipA portA none) rfl rfl
    (fun p hp => absurd hp (List.not_mem_nil p)) (by decide)
  exact ⟨rfl, by decide, h⟩

lemma process_eq_parse (conf : OvsdbConf) (gws : List (String × Gateway))
    (host : String) :
    _process_ovsdb_host conf gws host =
      match parseHost conf host with
      | some kv => alistInsert gws kv.1 kv.2
      | none => gws := by
  unfold _process_ovsdb_host parseHost
  cases host.splitOn colonSep with
  | nil => rfl
  | cons s0 t =>
    cases t with
    | nil => rfl
    | cons s1 t2 =>
      cases t2 with
      | nil => rfl
      | cons s2 t3 => rfl

lemma foldl_process (conf : OvsdbConf) (hosts : List String)
    (gws : List (String × Gateway)) :
    hosts.foldl (_process_ovsdb_host conf) gws =
      (hosts.filterMap (parseHost conf)).foldl
        (fun m kv => alistInsert m kv.1 kv.2) gws := by
  induction hosts generalizing gws with
  | nil => rfl
  | cons h rest ih =>
    rw [List.foldl_cons, process_eq_parse, List.filterMap_cons]
    cases hp : parseHost conf h with
    | none => exact ih gws
    | some kv =>
      rw [List.foldl_cons]
      exact ih (alistInsert gws kv.1 kv.2)

/-- C10: Malformed-host tolerance: with a non-empty host list (and a
retry/interval configuration that passes the startup check), extraction
succeeds and the registry holds exactly the successfully parsed entries of
the comma-separated list, inserted in order; an entry with fewer than three
colon-separated fields parses to nothing — it is skipped without affecting
the others and without aborting startup. -/
theorem malformed_host_tolerance (conf : OvsdbConf)
    (hne : conf.ovsdb_hosts ≠ emptyAgentType)
    (hlt : conf.max_connection_retries < conf.periodic_interval) :
    _extract_ovsdb_config conf =
      Except.ok (((conf.ovsdb_hosts.splitOn commaSep).filterMap
        (parseHost conf)).foldl (fun m kv => alistInsert m kv.1 kv.2) []) ∧
    ∀ host : String, (host.splitOn colonSep).length < 3 →
      parseHost conf host = none := by
  constructor
  · unfold _extract_ovsdb_config
    rw [if_pos hne, if_neg (by omega)]
    rw [foldl_process]
  · intro host hlen
    unfold parseHost
    cases hc : host.splitOn colonSep with
    | nil => rfl
    | cons s0 t =>
      cases t with
      | nil => rfl
      | cons s1 t2 =>
        cases t2 with
        | nil => rfl
        | cons s2 t3 =>
          rw [hc] at hlen
          simp only [List.length_cons] at hlen
          omega

/-- Configuration for the C10 witness: two well-formed host entries with a
malformed one between them. -/
def confC10 : OvsdbConf :=
  { ovsdb_hosts := "hostA:10.0.0.1:6632,badhost,hostB:10.0.0.2:6632"
    max_connection_retries := 3
    periodic_interval := 20
    l2_gw_agent_priv_key_base_path := emptyAgentType
    l2_gw_agent_cert_base_path := emptyAgentType
    l2_gw_agent_ca_cert_base_path := emptyAgentType }

/-- Witness for C10 at the concrete mixed host list. -/
theorem malformed_host_tolerance_witness :
    confC10.ovsdb_hosts ≠ emptyAgentType ∧
    confC10.max_connection_retries < confC10.periodic_interval ∧
    _extract_ovsdb_config confC10 =
      Except.ok (((confC10.ovsdb_hosts.splitOn commaSep).filterMap
        (parseHost confC10)).foldl (fun m kv => alistInsert m kv.1 kv.2) []) := by
  have h := malformed_host_tolerance confC10 (by decide) (by decide)
  exact ⟨by decide, by decide, h.1⟩

end L2GW
